import Mathlib

/-!
Shallow embedding of the transaction construction and submission core of the
hedera-sdk-rust repository: entity identifiers and their ledger checksums,
the per-transaction payload records (account create, account delete, token
update) with their builder setters, checksum validation, protobuf
encode/decode, RPC dispatch, and the spec-described envelope freeze,
chunk-planning and node-submission machinery.

Machine integers are modelled as `Nat`/`Int` with explicit wrap-around
(`% 2 ^ 64` etc.) where the Rust code performs `as` casts.
-/

namespace Hedera

/-- Bytes identifying the target network (`LedgerId` / `RefLedgerId` in the
SDK); mainnet is `[0]`, testnet `[1]`, previewnet `[2]`, but any byte string
is a valid ledger identity. -/
abbrev LedgerId := List Nat

/-- An entity identifier (common shape of `AccountId` / `TokenId`):
`{shard, realm, num, optional checksum}`.  The checksum is modelled as the
numeric value (`< 26 ^ 5`) whose base-26 rendering is the 5-character
lowercase checksum string; comparing values is exactly case-insensitive
comparison of the canonical strings. -/
structure EntityId where
  shard : Nat
  realm : Nat
  num : Nat
  checksum : Option Nat
deriving DecidableEq, Repr

abbrev AccountId := EntityId
abbrev TokenId := EntityId

/-- Modelled from the spec: cryptographic key material is opaque
(`sign`/`hash` and key parsing are out of scope), so a `Key` is an opaque
token with a bijective wire codec. -/
structure Key where
  raw : Nat
deriving DecidableEq, Repr

/-- Modelled from the spec: a public key used as an account alias, carrying
its raw byte serialization (`to_bytes_raw` in the SDK yields 32 bytes for
Ed25519 and 33 for compressed ECDSA keys). -/
structure PublicKey where
  bytes : List Nat
deriving DecidableEq, Repr

/-- A validly-constructed public key serializes to 32 or 33 raw bytes. -/
def PublicKey.wf (k : PublicKey) : Bool :=
  k.bytes.length == 32 || k.bytes.length == 33

/-- Mirrors `enum StakedId { AccountId(AccountId), NodeId(u64) }`
(`src/staked_id.rs`, referenced from `account_create_transaction.rs`). -/
inductive StakedId
  | accountId (id : AccountId)
  | nodeId (id : Nat)
deriving DecidableEq, Repr

/-- Mirrors `StakedId::to_account_id`: `Some` exactly on the account variant. -/
def StakedId.to_account_id : StakedId → Option AccountId
  | .accountId id => some id
  | .nodeId _ => none

/-- Mirrors `StakedId::to_node_id`: `Some` exactly on the node variant. -/
def StakedId.to_node_id : StakedId → Option Nat
  | .accountId _ => none
  | .nodeId id => some id

/-- The structured errors the modelled core can raise (`crate::Error`). -/
inductive Error
  | badEntityIdChecksum (expected : Nat) (actual : Nat) (id : EntityId)
  | keyParse
  | chunkCountExceeded (required : Nat) (maximum : Nat)
deriving DecidableEq, Repr

/-- Results of fallible operations are compared on concrete inputs, so give
`Except` decidable equality. -/
instance {ε α : Type} [DecidableEq ε] [DecidableEq α] : DecidableEq (Except ε α)
  | .ok a, .ok b => decidable_of_iff (a = b) ⟨congrArg _, fun h => by injection h⟩
  | .error a, .error b => decidable_of_iff (a = b) ⟨congrArg _, fun h => by injection h⟩
  | .ok _, .error _ => .isFalse fun h => Except.noConfusion h
  | .error _, .ok _ => .isFalse fun h => Except.noConfusion h

/-- An amount of hbar, stored as signed tinybars (`Hbar` wraps an `i64`). -/
abbrev Hbar := Int

/-- A time duration (`time::Duration`), modelled by its signed second count. -/
abbrev Duration := Int

/-- A point in time (`time::OffsetDateTime`), modelled as a signed timestamp. -/
abbrev OffsetDateTime := Int

/-- Rust `u64 as i64`: reinterpret the low 64 bits as a signed value. -/
def i64OfU64 (n : Nat) : Int :=
  if n % 2 ^ 64 < 2 ^ 63 then ((n % 2 ^ 64 : Nat) : Int)
  else ((n % 2 ^ 64 : Nat) : Int) - 2 ^ 64

/-- Rust `i64 as u64`: reinterpret the two's-complement bits as unsigned. -/
def u64OfI64 (i : Int) : Nat :=
  (i % 2 ^ 64).toNat

/-- Rust `i32 as u16`: keep the low 16 bits. -/
def u16OfI32 (i : Int) : Nat :=
  (i % 2 ^ 16).toNat

/-- Little-endian decimal digits of `n`, driven by a fuel argument so the
definition is structurally recursive (fuel `≥ n` suffices). -/
def decimalDigitsAux : Nat → Nat → List Nat
  | 0, _ => []
  | _ + 1, 0 => []
  | fuel + 1, n + 1 => ((n + 1) % 10) :: decimalDigitsAux fuel ((n + 1) / 10)

/-- The decimal digits of `n`, most significant first; `0` renders as `[0]`,
as in the decimal string form of an entity id. -/
def decimalDigits (n : Nat) : List Nat :=
  if n = 0 then [0] else (decimalDigitsAux n n).reverse

/-- Modelled from the spec: the digit sequence of the decimal string form
`shard.realm.num` of an entity id, with each dot contributing the value 10
(string positions feed the digest). `src/` does not contain `entity_id.rs`,
so this follows the spec's description of the checksum input. -/
def entityIdDigits (id : EntityId) : List Nat :=
  decimalDigits id.shard ++ [10] ++ decimalDigits id.realm ++ [10] ++ decimalDigits id.num

/-- Sum of the elements at even positions and at odd positions of a list. -/
def sumAlt : List Nat → Nat × Nat
  | [] => (0, 0)
  | x :: xs => ((sumAlt xs).2 + x, (sumAlt xs).1)

/-- Modelled from the spec: the network's entity-id checksum algorithm
(`src/` does not contain the checksum code): a fixed-alphabet base-26
digest computed deterministically from the decimal string form of
`(shard, realm, num)` concatenated with the ledger identity bytes.  The
result is the numeric value of the 5-character lowercase checksum
(`< 26 ^ 5`). -/
def entityChecksum (ledger : LedgerId) (id : EntityId) : Nat :=
  let p3 : Nat := 26 ^ 3
  let p5 : Nat := 26 ^ 5
  let d : List Nat := entityIdDigits id
  let s : Nat := d.foldl (fun s dg => (31 * s + dg) % p3) 0
  let s0 : Nat := (sumAlt d).1 % 11
  let s1 : Nat := (sumAlt d).2 % 11
  let h : List Nat := ledger ++ [0, 0, 0, 0, 0, 0]
  let sh : Nat := h.foldl (fun sh b => (31 * sh + b) % p5) 0
  let c : Nat := ((((d.length % 5) * 11 + s0) * 11 + s1) * p3 + s + sh) % p5
  (c * 1000003) % p5

/-- Modelled from the spec: checksum validation of one entity identifier
against a ledger identity.  An identifier without an embedded checksum
passes unconditionally; one with a checksum passes exactly when the
recomputed checksum matches, and otherwise fails with
`BadEntityIdChecksum { expected, actual, identifier }`. -/
def EntityId.validate_checksums (id : EntityId) (ledger : LedgerId) : Except Error Unit :=
  match id.checksum with
  | none => .ok ()
  | some actual =>
    let expected := entityChecksum ledger id
    if actual = expected then .ok ()
    else .error (.badEntityIdChecksum expected actual id)

/-- Mirrors the blanket `ValidateChecksums for Option<T>` impl: `None`
validates trivially. -/
def optionValidate {α : Type} (validate : α → LedgerId → Except Error Unit) :
    Option α → LedgerId → Except Error Unit
  | none, _ => .ok ()
  | some a, ledger => validate a ledger

/-- Mirrors `ValidateChecksums for StakedId`: only the account-id variant
carries a checksummed identifier; a node id has none. -/
def StakedId.validate_checksums (s : StakedId) (ledger : LedgerId) : Except Error Unit :=
  match s with
  | .accountId id => id.validate_checksums ledger
  | .nodeId _ => .ok ()

/-- Mirrors `struct AccountCreateTransactionData`
(`src/src/account/account_create_transaction.rs`, lines 58-98). -/
structure AccountCreateTransactionData where
  key : Option Key
  initial_balance : Hbar
  receiver_signature_required : Bool
  auto_renew_period : Option Duration
  auto_renew_account_id : Option AccountId
  account_memo : String
  max_automatic_token_associations : Nat
  «alias» : Option PublicKey
  evm_address : Option (List Nat)
  staked_id : Option StakedId
  decline_staking_reward : Bool
deriving DecidableEq, Repr

/-- Mirrors `impl Default for AccountCreateTransactionData` (lines 100-116):
everything empty except a 90-day auto-renew period (in seconds). -/
def AccountCreateTransactionData.default : AccountCreateTransactionData where
  key := none
  initial_balance := 0
  receiver_signature_required := false
  auto_renew_period := some (90 * 24 * 60 * 60)
  auto_renew_account_id := none
  account_memo := ""
  max_automatic_token_associations := 0
  «alias» := none
  evm_address := none
  staked_id := none
  decline_staking_reward := false

/-- Mirrors `struct TokenUpdateTransactionData`
(`src/src/token/token_update_transaction.rs`, lines 73-122). -/
structure TokenUpdateTransactionData where
  token_id : Option TokenId
  token_name : String
  token_symbol : String
  treasury_account_id : Option AccountId
  admin_key : Option Key
  kyc_key : Option Key
  freeze_key : Option Key
  wipe_key : Option Key
  supply_key : Option Key
  auto_renew_account_id : Option AccountId
  auto_renew_period : Option Duration
  expiration_time : Option OffsetDateTime
  token_memo : String
  fee_schedule_key : Option Key
  pause_key : Option Key
deriving DecidableEq, Repr

/-- The derived `Default` for `TokenUpdateTransactionData`: all fields empty. -/
def TokenUpdateTransactionData.default : TokenUpdateTransactionData where
  token_id := none
  token_name := ""
  token_symbol := ""
  treasury_account_id := none
  admin_key := none
  kyc_key := none
  freeze_key := none
  wipe_key := none
  supply_key := none
  auto_renew_account_id := none
  auto_renew_period := none
  expiration_time := none
  token_memo := ""
  fee_schedule_key := none
  pause_key := none

/-- Mirrors `AccountAddress` of the account-delete module: restricted here
to its numeric account-id form. -/
abbrev AccountAddress := EntityId

/-- Mirrors `struct AccountDeleteTransactionData`
(`src/sdk/rust/src/account/account_delete_transaction.rs`, lines 18-27). -/
structure AccountDeleteTransactionData where
  transfer_account_id : Option AccountAddress
  delete_account_id : Option AccountAddress
deriving DecidableEq, Repr

/-- The generic transaction container `Transaction<D>`; builder setters
mutate `data` in place, modelled functionally. -/
structure Transaction (D : Type) where
  data : D
deriving DecidableEq, Repr

abbrev AccountCreateTransaction := Transaction AccountCreateTransactionData
abbrev TokenUpdateTransaction := Transaction TokenUpdateTransactionData

/-- Mirrors `AccountCreateTransaction::staked_account_id` (lines 268-271):
stores `Some(StakedId::AccountId(id))`. -/
def AccountCreateTransaction.staked_account_id
    (tx : AccountCreateTransaction) (id : AccountId) : AccountCreateTransaction :=
  { tx with data := { tx.data with staked_id := some (.accountId id) } }

/-- Mirrors `AccountCreateTransaction::staked_node_id` (lines 282-285):
stores `Some(StakedId::NodeId(id))`. -/
def AccountCreateTransaction.staked_node_id
    (tx : AccountCreateTransaction) (id : Nat) : AccountCreateTransaction :=
  { tx with data := { tx.data with staked_id := some (.nodeId id) } }

/-- Mirrors `AccountCreateTransaction::get_staked_account_id` (lines 262-264):
`staked_id.and_then(StakedId::to_account_id)`. -/
def AccountCreateTransaction.get_staked_account_id
    (tx : AccountCreateTransaction) : Option AccountId :=
  tx.data.staked_id.bind StakedId.to_account_id

/-- Mirrors `AccountCreateTransaction::get_staked_node_id` (lines 276-278):
`staked_id.and_then(StakedId::to_node_id)`. -/
def AccountCreateTransaction.get_staked_node_id
    (tx : AccountCreateTransaction) : Option Nat :=
  tx.data.staked_id.bind StakedId.to_node_id

/-- Mirrors `TokenUpdateTransaction::expiration_time` (lines 288-294): sets
the expiration time and clears `auto_renew_period`. -/
def TokenUpdateTransaction.expiration_time
    (tx : TokenUpdateTransaction) (t : OffsetDateTime) : TokenUpdateTransaction :=
  { tx with data := { tx.data with expiration_time := some t, auto_renew_period := none } }

/-- Mirrors `TokenUpdateTransaction::auto_renew_period` setter (lines 273-276). -/
def TokenUpdateTransaction.auto_renew_period
    (tx : TokenUpdateTransaction) (d : Duration) : TokenUpdateTransaction :=
  { tx with data := { tx.data with auto_renew_period := some d } }

/-- Mirrors `TokenUpdateTransaction::get_expiration_time` (lines 280-282). -/
def TokenUpdateTransaction.get_expiration_time
    (tx : TokenUpdateTransaction) : Option OffsetDateTime :=
  tx.data.expiration_time

/-- Mirrors `TokenUpdateTransaction::get_auto_renew_period` (lines 267-269). -/
def TokenUpdateTransaction.get_auto_renew_period
    (tx : TokenUpdateTransaction) : Option Duration :=
  tx.data.auto_renew_period

/-- Mirrors `TokenUpdateTransaction::get_token_id` (lines 127-129). -/
def TokenUpdateTransaction.get_token_id (tx : TokenUpdateTransaction) : Option TokenId :=
  tx.data.token_id

/-- Mirrors `TokenUpdateTransaction::get_token_name` (lines 139-141). -/
def TokenUpdateTransaction.get_token_name (tx : TokenUpdateTransaction) : String :=
  tx.data.token_name

/-- Mirrors `TokenUpdateTransaction::get_token_symbol` (lines 153-155). -/
def TokenUpdateTransaction.get_token_symbol (tx : TokenUpdateTransaction) : String :=
  tx.data.token_symbol

/-- Mirrors `TokenUpdateTransaction::get_treasury_account_id` (lines 167-169). -/
def TokenUpdateTransaction.get_treasury_account_id
    (tx : TokenUpdateTransaction) : Option AccountId :=
  tx.data.treasury_account_id

/-- Mirrors `TokenUpdateTransaction::get_admin_key` (lines 185-187). -/
def TokenUpdateTransaction.get_admin_key (tx : TokenUpdateTransaction) : Option Key :=
  tx.data.admin_key

/-- Mirrors `TokenUpdateTransaction::get_kyc_key` (lines 199-201). -/
def TokenUpdateTransaction.get_kyc_key (tx : TokenUpdateTransaction) : Option Key :=
  tx.data.kyc_key

/-- Mirrors `TokenUpdateTransaction::get_freeze_key` (lines 213-215). -/
def TokenUpdateTransaction.get_freeze_key (tx : TokenUpdateTransaction) : Option Key :=
  tx.data.freeze_key

/-- Mirrors `TokenUpdateTransaction::get_wipe_key` (lines 227-229). -/
def TokenUpdateTransaction.get_wipe_key (tx : TokenUpdateTransaction) : Option Key :=
  tx.data.wipe_key

/-- Mirrors `TokenUpdateTransaction::get_supply_key` (lines 241-243). -/
def TokenUpdateTransaction.get_supply_key (tx : TokenUpdateTransaction) : Option Key :=
  tx.data.supply_key

/-- Mirrors `TokenUpdateTransaction::get_auto_renew_account_id` (lines 255-257). -/
def TokenUpdateTransaction.get_auto_renew_account_id
    (tx : TokenUpdateTransaction) : Option AccountId :=
  tx.data.auto_renew_account_id

/-- Mirrors `TokenUpdateTransaction::get_token_memo` (lines 298-300). -/
def TokenUpdateTransaction.get_token_memo (tx : TokenUpdateTransaction) : String :=
  tx.data.token_memo

/-- Mirrors `TokenUpdateTransaction::get_fee_schedule_key` (lines 312-314). -/
def TokenUpdateTransaction.get_fee_schedule_key (tx : TokenUpdateTransaction) : Option Key :=
  tx.data.fee_schedule_key

/-- Mirrors `TokenUpdateTransaction::get_pause_key` (lines 327-329). -/
def TokenUpdateTransaction.get_pause_key (tx : TokenUpdateTransaction) : Option Key :=
  tx.data.pause_key

/-- Modelled from the spec: the wire codec for an entity id is an opaque
bijective `ToWire`/`FromWire` pair (`entity_id.rs` is not under `src/`), so
the protobuf form of an id is the id itself. -/
def EntityId.to_protobuf (id : EntityId) : EntityId := id

/-- Mirrors `services::crypto_create_transaction_body::StakedId`, the
protobuf one-of between a staked account id and a staked node id (`i64`). -/
inductive ProtoCreateStakedId
  | stakedAccountId (id : EntityId)
  | stakedNodeId (id : Int)
deriving DecidableEq, Repr

/-- Modelled from the spec (bijective wire codec): decoding of the staked-id
one-of, inverse to the encoding in `to_protobuf` lines 374-383. -/
def ProtoCreateStakedId.decode : ProtoCreateStakedId → StakedId
  | .stakedAccountId id => .accountId id
  | .stakedNodeId id => .nodeId (u64OfI64 id)

/-- Mirrors the fields of `services::CryptoCreateTransactionBody` that the
SDK reads or writes. -/
structure CryptoCreateTransactionBody where
  key : Option Key
  initial_balance : Nat
  proxy_account_id : Option EntityId
  send_record_threshold : Nat
  receive_record_threshold : Nat
  receiver_sig_required : Bool
  auto_renew_period : Option Duration
  shard_id : Option Nat
  realm_id : Option Nat
  new_realm_admin_key : Option Key
  memo : String
  max_automatic_token_associations : Int
  «alias» : List Nat
  decline_reward : Bool
  staked_id : Option ProtoCreateStakedId
deriving DecidableEq, Repr

/-- Mirrors `ToProtobuf for AccountCreateTransactionData` (lines 368-404):
note the `i64 as u64` cast on the balance, the `u64 as i64` cast on a
staked node id, the constant record thresholds, and that `evm_address` is
never written (the `alias` byte field carries the key alias or nothing). -/
def AccountCreateTransactionData.to_protobuf
    (d : AccountCreateTransactionData) : CryptoCreateTransactionBody where
  key := d.key
  initial_balance := u64OfI64 d.initial_balance
  proxy_account_id := none
  send_record_threshold := 2 ^ 63 - 1
  receive_record_threshold := 2 ^ 63 - 1
  receiver_sig_required := d.receiver_signature_required
  auto_renew_period := d.auto_renew_period
  shard_id := none
  realm_id := none
  new_realm_admin_key := none
  memo := d.account_memo
  max_automatic_token_associations := (d.max_automatic_token_associations : Int)
  «alias» := (d.«alias».map PublicKey.bytes).getD []
  decline_reward := d.decline_staking_reward
  staked_id := d.staked_id.map fun it =>
    match it with
    | .nodeId id => .stakedNodeId (i64OfU64 id)
    | .accountId id => .stakedAccountId id.to_protobuf

/-- Modelled from the spec: `PublicKey::from_alias_bytes` parses an alias
byte field into an optional public key: empty bytes are no alias, a
validly-sized raw key (32 or 33 bytes) parses, anything else is a key-parse
error. -/
def PublicKey.from_alias_bytes (bs : List Nat) : Except Error (Option PublicKey) :=
  if bs = [] then .ok none
  else if bs.length = 32 ∨ bs.length = 33 then .ok (some ⟨bs⟩)
  else .error .keyParse

/-- Rust `pb.alias.as_slice().try_into().ok()` targeting `[u8; 20]`:
succeeds exactly when the byte field has length 20. -/
def tryIntoEvmAddress (bs : List Nat) : Option (List Nat) :=
  if bs.length = 20 then some bs else none

/-- Mirrors `FromProtobuf for AccountCreateTransactionData` (lines 343-366):
the alias byte field is an evm address exactly when it has 20 bytes and is
otherwise parsed as a key alias; `auto_renew_period` and
`auto_renew_account_id` are unconditionally decoded as `None`. -/
def AccountCreateTransactionData.from_protobuf (pb : CryptoCreateTransactionBody) :
    Except Error AccountCreateTransactionData :=
  match (if pb.«alias».length ≠ 20 then PublicKey.from_alias_bytes pb.«alias» else .ok none) with
  | .error e => .error e
  | .ok keyAlias =>
  .ok { key := pb.key
        initial_balance := i64OfU64 pb.initial_balance
        receiver_signature_required := pb.receiver_sig_required
        auto_renew_period := none
        auto_renew_account_id := none
        account_memo := pb.memo
        max_automatic_token_associations := u16OfI32 pb.max_automatic_token_associations
        «alias» := keyAlias
        evm_address := tryIntoEvmAddress pb.«alias»
        staked_id := pb.staked_id.map ProtoCreateStakedId.decode
        decline_staking_reward := pb.decline_reward }

/-- Mirrors the fields of `services::TokenUpdateTransactionBody`. -/
structure TokenUpdateTransactionBody where
  token : Option TokenId
  name : String
  symbol : String
  treasury : Option AccountId
  admin_key : Option Key
  kyc_key : Option Key
  freeze_key : Option Key
  wipe_key : Option Key
  supply_key : Option Key
  expiry : Option OffsetDateTime
  auto_renew_account : Option AccountId
  auto_renew_period : Option Duration
  memo : Option String
  fee_schedule_key : Option Key
  pause_key : Option Key
deriving DecidableEq, Repr

/-- Mirrors `ToProtobuf for TokenUpdateTransactionData` (lines 407-429). -/
def TokenUpdateTransactionData.to_protobuf
    (d : TokenUpdateTransactionData) : TokenUpdateTransactionBody where
  token := d.token_id.map EntityId.to_protobuf
  name := d.token_name
  symbol := d.token_symbol
  treasury := d.treasury_account_id.map EntityId.to_protobuf
  admin_key := d.admin_key
  kyc_key := d.kyc_key
  freeze_key := d.freeze_key
  wipe_key := d.wipe_key
  supply_key := d.supply_key
  expiry := d.expiration_time
  auto_renew_account := d.auto_renew_account_id.map EntityId.to_protobuf
  auto_renew_period := d.auto_renew_period
  memo := some d.token_memo
  fee_schedule_key := d.fee_schedule_key
  pause_key := d.pause_key

/-- Mirrors `FromProtobuf for TokenUpdateTransactionData` (lines 385-405);
the optional memo decodes with `unwrap_or_default`. -/
def TokenUpdateTransactionData.from_protobuf (pb : TokenUpdateTransactionBody) :
    Except Error TokenUpdateTransactionData :=
  .ok { token_id := pb.token
        token_name := pb.name
        token_symbol := pb.symbol
        treasury_account_id := pb.treasury
        admin_key := pb.admin_key
        kyc_key := pb.kyc_key
        freeze_key := pb.freeze_key
        wipe_key := pb.wipe_key
        supply_key := pb.supply_key
        auto_renew_account_id := pb.auto_renew_account
        auto_renew_period := pb.auto_renew_period
        expiration_time := pb.expiry
        token_memo := pb.memo.getD ""
        fee_schedule_key := pb.fee_schedule_key
        pause_key := pb.pause_key }

/-- Mirrors `services::CryptoDeleteTransactionBody`. -/
structure CryptoDeleteTransactionBody where
  delete_account_id : Option EntityId
  transfer_account_id : Option EntityId
deriving DecidableEq, Repr

/-- Mirrors `services::transaction_body::Data` restricted to the variants
the embedded payloads produce. -/
inductive TransactionBodyData
  | cryptoCreateAccount (body : CryptoCreateTransactionBody)
  | cryptoDelete (body : CryptoDeleteTransactionBody)
  | tokenUpdate (body : TokenUpdateTransactionBody)
deriving DecidableEq, Repr

/-- Mirrors `ToTransactionDataProtobuf for AccountDeleteTransactionData`
(`account_delete_transaction.rs`, lines 54-68). -/
def AccountDeleteTransactionData.to_transaction_data_protobuf
    (d : AccountDeleteTransactionData) : TransactionBodyData :=
  .cryptoDelete
    { delete_account_id := d.delete_account_id.map EntityId.to_protobuf
      transfer_account_id := d.transfer_account_id.map EntityId.to_protobuf }

/-- The closed payload sum type (`AnyTransactionData`) restricted to the
variants present in `src/`. -/
inductive AnyTransactionData
  | accountCreate (d : AccountCreateTransactionData)
  | accountDelete (d : AccountDeleteTransactionData)
  | tokenUpdate (d : TokenUpdateTransactionData)
deriving DecidableEq, Repr

/-- Mirrors the per-variant `ToTransactionDataProtobuf` impls: account
creation tags `CryptoCreateAccount` (lines 318-327), token update tags
`TokenUpdate` (lines 360-369), account deletion tags `CryptoDelete`. -/
def AnyTransactionData.to_transaction_data_protobuf :
    AnyTransactionData → TransactionBodyData
  | .accountCreate d => .cryptoCreateAccount d.to_protobuf
  | .accountDelete d => d.to_transaction_data_protobuf
  | .tokenUpdate d => .tokenUpdate d.to_protobuf

/-- The RPC methods named by the three `TransactionExecute` impls. -/
inductive RpcMethod
  | create_account
  | crypto_delete
  | update_token
deriving DecidableEq, Repr

/-- A gRPC channel, opaque to the dispatch logic. -/
abbrev Channel := Nat

/-- The signed wire request (`services::Transaction`), opaque to dispatch. -/
abbrev ProtoTransaction := Nat

/-- The observable effect of a `TransactionExecute::execute` impl: which
RPC method is invoked, on which channel, with which request. -/
structure GrpcCall where
  method : RpcMethod
  channel : Channel
  request : ProtoTransaction
deriving DecidableEq, Repr

/-- Mirrors `TransactionExecute for AccountCreateTransactionData`
(lines 302-310): `CryptoServiceClient::new(channel).create_account(request)`. -/
def AccountCreateTransactionData.execute (_d : AccountCreateTransactionData)
    (channel : Channel) (request : ProtoTransaction) : GrpcCall :=
  ⟨.create_account, channel, request⟩

/-- Mirrors `TransactionExecute for AccountDeleteTransactionData`
(`account_delete_transaction.rs`, lines 43-52):
`CryptoServiceClient::new(channel).crypto_delete(request)`. -/
def AccountDeleteTransactionData.execute (_d : AccountDeleteTransactionData)
    (channel : Channel) (request : ProtoTransaction) : GrpcCall :=
  ⟨.crypto_delete, channel, request⟩

/-- Mirrors `TransactionExecute for TokenUpdateTransactionData`
(lines 342-350): `TokenServiceClient::new(channel).update_token(request)`. -/
def TokenUpdateTransactionData.execute (_d : TokenUpdateTransactionData)
    (channel : Channel) (request : ProtoTransaction) : GrpcCall :=
  ⟨.update_token, channel, request⟩

/-- Dispatch of `execute` through the payload sum type. -/
def AnyTransactionData.execute :
    AnyTransactionData → Channel → ProtoTransaction → GrpcCall
  | .accountCreate d, ch, rq => d.execute ch rq
  | .accountDelete d, ch, rq => d.execute ch rq
  | .tokenUpdate d, ch, rq => d.execute ch rq

/-- The RPC method a payload variant dispatches to, read off its
`TransactionExecute` impl. -/
def AnyTransactionData.rpc_method : AnyTransactionData → RpcMethod
  | .accountCreate _ => .create_account
  | .accountDelete _ => .crypto_delete
  | .tokenUpdate _ => .update_token

/-- Mirrors `ValidateChecksums for AccountCreateTransactionData`
(lines 312-316): only `self.staked_id` is validated. -/
def AccountCreateTransactionData.validate_checksums
    (d : AccountCreateTransactionData) (ledger : LedgerId) : Except Error Unit :=
  optionValidate StakedId.validate_checksums d.staked_id ledger

/-- Mirrors `ValidateChecksums for TokenUpdateTransactionData`
(lines 352-358): token id, then auto-renew account id, then treasury
account id, short-circuiting on the first failure. -/
def TokenUpdateTransactionData.validate_checksums
    (d : TokenUpdateTransactionData) (ledger : LedgerId) : Except Error Unit :=
  match optionValidate EntityId.validate_checksums d.token_id ledger with
  | .error e => .error e
  | .ok _ =>
    match optionValidate EntityId.validate_checksums d.auto_renew_account_id ledger with
    | .error e => .error e
    | .ok _ => optionValidate EntityId.validate_checksums d.treasury_account_id ledger

/-- Modelled from the spec: `src/` carries no `ValidateChecksums` impl for
`AccountDeleteTransactionData` (its file predates that trait), so per the
spec's "every identifier the payload exposes" both account identifiers are
validated. -/
def AccountDeleteTransactionData.validate_checksums
    (d : AccountDeleteTransactionData) (ledger : LedgerId) : Except Error Unit :=
  match optionValidate EntityId.validate_checksums d.delete_account_id ledger with
  | .error e => .error e
  | .ok _ => optionValidate EntityId.validate_checksums d.transfer_account_id ledger

/-- Dispatch of `validate_checksums` through the payload sum type. -/
def AnyTransactionData.validate_checksums :
    AnyTransactionData → LedgerId → Except Error Unit
  | .accountCreate d, ledger => d.validate_checksums ledger
  | .accountDelete d, ledger => d.validate_checksums ledger
  | .tokenUpdate d, ledger => d.validate_checksums ledger

/-- The checksummed entity identifiers each payload's validator covers, in
validation order. -/
def AnyTransactionData.covered_identifiers : AnyTransactionData → List EntityId
  | .accountCreate d => (d.staked_id.bind StakedId.to_account_id).toList
  | .accountDelete d => d.delete_account_id.toList ++ d.transfer_account_id.toList
  | .tokenUpdate d =>
      d.token_id.toList ++ d.auto_renew_account_id.toList ++ d.treasury_account_id.toList

/-- What `execute` hands to the Node Submission Pipeline on success: the
serialized wire body and the RPC method chosen by dispatch. -/
structure Submission where
  body : TransactionBodyData
  method : RpcMethod
deriving DecidableEq, Repr

/-- Modelled from the spec: `Transaction::execute` runs the Identifier &
Checksum Validator over the payload first, and only on success serializes
the payload and delegates to the Node Submission Pipeline (the generic
execute machinery is not under `src/`; the validation and serialization it
invokes are the source impls above). -/
def executeTransaction (p : AnyTransactionData) (ledger : LedgerId) :
    Except Error Submission :=
  match p.validate_checksums ledger with
  | .error e => .error e
  | .ok _ => .ok ⟨p.to_transaction_data_protobuf, p.rpc_method⟩

/-- One chunk of an oversized payload: its index, the total chunk count,
and its contiguous byte range. -/
structure Chunk where
  index : Nat
  total : Nat
  payload : List Nat
deriving DecidableEq, Repr

/-- Splits a byte list into contiguous ranges of at most `n` bytes, driven
by a fuel argument for structural recursion (fuel `≥` the list length
suffices when `0 < n`). -/
def chunkRangesAux : Nat → Nat → List Nat → List (List Nat)
  | 0, _, _ => []
  | _ + 1, _, [] => []
  | fuel + 1, n, x :: xs => ((x :: xs).take n) :: chunkRangesAux fuel n ((x :: xs).drop n)

/-- The ordered contiguous byte ranges of `bytes`, each of at most `n`
bytes. -/
def chunkRanges (n : Nat) (bytes : List Nat) : List (List Nat) :=
  chunkRangesAux bytes.length n bytes

/-- Modelled from the spec: the Chunk Planner (not under `src/`).  It splits
the payload bytes into contiguous ranges of at most `per_chunk_limit`
bytes, assigns contiguous indices starting at 0 together with the total
count, and fails with `ChunkCountExceeded` when the required count exceeds
the configured maximum. -/
def chunkPlanner (max_chunks per_chunk_limit : Nat) (bytes : List Nat) :
    Except Error (List Chunk) :=
  let required := (bytes.length + per_chunk_limit - 1) / per_chunk_limit
  if max_chunks < required then .error (.chunkCountExceeded required max_chunks)
  else .ok ((chunkRanges per_chunk_limit bytes).enum.map fun p => ⟨p.1, required, p.2⟩)

/-- A transaction id: payer account, start timestamp, optional chunk nonce
(spec §3). -/
structure TransactionId where
  account_id : AccountId
  valid_start : Nat
  nonce : Option Nat
deriving DecidableEq, Repr

/-- Modelled from the spec: the generic transaction Envelope state the
freeze operation manipulates (spec §3/§4.1); signatures are collected
after freezing and do not feed the freeze result. -/
structure Envelope where
  payload_bytes : List Nat
  transaction_id : Option TransactionId
  node_account_ids : Option (List AccountId)
  frozen : Bool
  chunk_plan : Option (List Chunk)
deriving DecidableEq, Repr

/-- The externally supplied configuration freeze consumes (spec §6):
node candidates, default transaction id, chunk threshold and limits. -/
structure FreezeContext where
  node_candidates : List AccountId
  default_transaction_id : TransactionId
  chunk_threshold : Nat
  per_chunk_limit : Nat
  max_chunks : Nat
deriving DecidableEq, Repr

/-- Modelled from the spec: `Envelope.freeze` (spec §4.1, not under `src/`)
assigns the transaction id and node candidate ordering if unset, invokes
the Chunk Planner when the payload exceeds the chunk threshold, and marks
the envelope frozen. -/
def Envelope.freeze (cfg : FreezeContext) (e : Envelope) : Except Error Envelope :=
  match (if cfg.chunk_threshold < e.payload_bytes.length
      then (chunkPlanner cfg.max_chunks cfg.per_chunk_limit e.payload_bytes).map some
      else .ok none) with
  | .error err => .error err
  | .ok plan =>
    .ok { e with
          transaction_id := some (e.transaction_id.getD cfg.default_transaction_id)
          node_account_ids := some (e.node_account_ids.getD cfg.node_candidates)
          chunk_plan := plan
          frozen := true }

/-- A node's synchronous answer to one submission attempt (spec §4.5's
classification): acceptance, a retryable busy/unavailable/transport
failure, or a permanent protocol rejection. -/
inductive SubmitOutcome
  | accepted
  | retryable (reason : Nat)
  | permanent (reason : Nat)
deriving DecidableEq, Repr

/-- The result the Node Submission Pipeline surfaces to the caller:
acceptance at some attempt, an immediate permanent rejection, or
`SubmissionExhaustedError` carrying the per-attempt `(node, reason)`
failures in attempt order. -/
inductive SubmitResult
  | accepted (attempt : Nat)
  | rejected (node : Nat) (reason : Nat)
  | exhausted (failures : List (Nat × Nat))
deriving DecidableEq, Repr

/-- Modelled from the spec: the retry loop of the Node Submission Pipeline
(spec §4.5, not under `src/`).  `respond i node` is the outcome of attempt
`i` against `node`; the loop advances through the candidate list
cyclically, stops immediately on acceptance or permanent rejection, and
after `fuel` attempts without acceptance surfaces the accumulated failure
reasons in attempt order. -/
def submitGo (respond : Nat → Nat → SubmitOutcome) (nodes : List Nat) :
    Nat → Nat → List (Nat × Nat) → SubmitResult
  | _, 0, acc => .exhausted acc.reverse
  | i, fuel + 1, acc =>
    let node := nodes.getD (i % nodes.length) 0
    match respond i node with
    | .accepted => .accepted i
    | .permanent reason => .rejected node reason
    | .retryable reason => submitGo respond nodes (i + 1) fuel ((node, reason) :: acc)

/-- Modelled from the spec: the Node Submission Pipeline entry point with
retry policy `max_attempts`. -/
def submit_pipeline (respond : Nat → Nat → SubmitOutcome) (nodes : List Nat)
    (max_attempts : Nat) : SubmitResult :=
  submitGo respond nodes 0 max_attempts []

/-- A validly-constructed account-create payload: the balance fits in an
`i64`, the token-association count fits in a `u16`, any alias key has a
valid raw serialization, and any staked node id fits in a `u64` — the
constraints the Rust field types impose by construction. -/
def AccountCreateTransactionData.wf (d : AccountCreateTransactionData) : Bool :=
  decide (-2 ^ 63 ≤ d.initial_balance) && decide (d.initial_balance < 2 ^ 63)
  && decide (d.max_automatic_token_associations < 2 ^ 16)
  && d.«alias».all PublicKey.wf
  && (match d.staked_id with
      | some (.nodeId n) => decide (n < 2 ^ 64)
      | _ => true)

/-- A concrete wire body whose alias byte field has exactly 20 bytes. -/
def samplePb20 : CryptoCreateTransactionBody where
  key := none
  initial_balance := 0
  proxy_account_id := none
  send_record_threshold := 2 ^ 63 - 1
  receive_record_threshold := 2 ^ 63 - 1
  receiver_sig_required := false
  auto_renew_period := none
  shard_id := none
  realm_id := none
  new_realm_admin_key := none
  memo := ""
  max_automatic_token_associations := 0
  «alias» := List.replicate 20 7
  decline_reward := false
  staked_id := none

/-- A concrete wire body whose alias byte field has 5 bytes: neither an evm
address nor a validly-sized key. -/
def samplePb5 : CryptoCreateTransactionBody :=
  { samplePb20 with «alias» := [1, 2, 3, 4, 5] }

/-- The payload `samplePb20` decodes to. -/
def sampleDecoded20 : AccountCreateTransactionData :=
  { AccountCreateTransactionData.default with
      auto_renew_period := none
      evm_address := some (List.replicate 20 7) }

/-- A concrete unfrozen envelope whose 3-byte payload exceeds the sample
chunk threshold. -/
def sampleEnvelope : Envelope where
  payload_bytes := [1, 2, 3]
  transaction_id := none
  node_account_ids := none
  frozen := false
  chunk_plan := none

/-- A concrete freeze configuration for `sampleEnvelope`. -/
def sampleFreezeContext : FreezeContext where
  node_candidates := [⟨0, 0, 3, none⟩, ⟨0, 0, 5, none⟩]
  default_transaction_id := ⟨⟨0, 0, 2, none⟩, 1000, none⟩
  chunk_threshold := 2
  per_chunk_limit := 2
  max_chunks := 10

/-- The envelope `sampleEnvelope` freezes to under `sampleFreezeContext`. -/
def sampleFrozen : Envelope where
  payload_bytes := [1, 2, 3]
  transaction_id := some ⟨⟨0, 0, 2, none⟩, 1000, none⟩
  node_account_ids := some [⟨0, 0, 3, none⟩, ⟨0, 0, 5, none⟩]
  frozen := true
  chunk_plan := some [⟨0, 2, [1, 2]⟩, ⟨1, 2, [3]⟩]

/-- Casting a `u64` value to `i64` and back is the identity. -/
theorem u64OfI64_i64OfU64 (n : Nat) (h : n < 2 ^ 64) : u64OfI64 (i64OfU64 n) = n := by
  have e1 : (2 : Nat) ^ 64 = 18446744073709551616 := by norm_num
  have e2 : (2 : Nat) ^ 63 = 9223372036854775808 := by norm_num
  have e3 : (2 : Int) ^ 64 = 18446744073709551616 := by norm_num
  have e4 : (2 : Int) ^ 63 = 9223372036854775808 := by norm_num
  unfold i64OfU64 u64OfI64
  rw [e1, e2, e3] at *
  split <;> omega

/-- Casting an in-range `i64` value to `u64` and back is the identity. -/
theorem i64OfU64_u64OfI64 (i : Int) (h1 : -2 ^ 63 ≤ i) (h2 : i < 2 ^ 63) :
    i64OfU64 (u64OfI64 i) = i := by
  have e1 : (2 : Nat) ^ 64 = 18446744073709551616 := by norm_num
  have e2 : (2 : Nat) ^ 63 = 9223372036854775808 := by norm_num
  have e3 : (2 : Int) ^ 64 = 18446744073709551616 := by norm_num
  have e4 : (2 : Int) ^ 63 = 9223372036854775808 := by norm_num
  unfold i64OfU64 u64OfI64
  rw [e1, e2, e3, e4] at *
  split <;> omega

/-- Casting an in-range `u16` value through `i32` and back is the identity. -/
theorem u16OfI32_coe (m : Nat) (h : m < 2 ^ 16) : u16OfI32 (m : Int) = m := by
  have e1 : (2 : Nat) ^ 16 = 65536 := by norm_num
  have e2 : (2 : Int) ^ 16 = 65536 := by norm_num
  unfold u16OfI32
  rw [e1] at h
  rw [e2]
  omega

/-- C3: each payload variant maps to exactly one RPC method determined
solely by the variant: for every channel and request, an account-creation
payload invokes the crypto service's create-account method, an
account-deletion payload the crypto-delete method, and a token-update
payload the token service's update-token method. -/
theorem c3_dispatch_registry (dc : AccountCreateTransactionData)
    (dd : AccountDeleteTransactionData) (du : TokenUpdateTransactionData)
    (channel : Channel) (request : ProtoTransaction) :
    AnyTransactionData.execute (.accountCreate dc) channel request
        = ⟨.create_account, channel, request⟩
    ∧ AnyTransactionData.execute (.accountDelete dd) channel request
        = ⟨.crypto_delete, channel, request⟩
    ∧ AnyTransactionData.execute (.tokenUpdate du) channel request
        = ⟨.update_token, channel, request⟩ :=
  ⟨rfl, rfl, rfl⟩

/-- C8: on a token-update transaction, the `expiration_time` setter does
not leave the other fields unchanged: for every prior state it clears the
auto-renew period (even one set immediately before), sets the expiration
time, and leaves every other field untouched. -/
theorem c8_expiration_time_clears_auto_renew (tx : TokenUpdateTransaction)
    (t : OffsetDateTime) (p : Duration) :
    TokenUpdateTransaction.get_expiration_time
        (TokenUpdateTransaction.expiration_time tx t) = some t
    ∧ TokenUpdateTransaction.get_auto_renew_period
        (TokenUpdateTransaction.expiration_time tx t) = none
    ∧ TokenUpdateTransaction.get_auto_renew_period
        (TokenUpdateTransaction.expiration_time
          (TokenUpdateTransaction.auto_renew_period tx p) t) = none
    ∧ TokenUpdateTransaction.get_token_id
        (TokenUpdateTransaction.expiration_time tx t)
        = TokenUpdateTransaction.get_token_id tx
    ∧ TokenUpdateTransaction.get_token_name
        (TokenUpdateTransaction.expiration_time tx t)
        = TokenUpdateTransaction.get_token_name tx
    ∧ TokenUpdateTransaction.get_token_symbol
        (TokenUpdateTransaction.expiration_time tx t)
        = TokenUpdateTransaction.get_token_symbol tx
    ∧ TokenUpdateTransaction.get_treasury_account_id
        (TokenUpdateTransaction.expiration_time tx t)
        = TokenUpdateTransaction.get_treasury_account_id tx
    ∧ TokenUpdateTransaction.get_admin_key
        (TokenUpdateTransaction.expiration_time tx t)
        = TokenUpdateTransaction.get_admin_key tx
    ∧ TokenUpdateTransaction.get_kyc_key
        (TokenUpdateTransaction.expiration_time tx t)
        = TokenUpdateTransaction.get_kyc_key tx
    ∧ TokenUpdateTransaction.get_freeze_key
        (TokenUpdateTransaction.expiration_time tx t)
        = TokenUpdateTransaction.get_freeze_key tx
    ∧ TokenUpdateTransaction.get_wipe_key
        (TokenUpdateTransaction.expiration_time tx t)
        = TokenUpdateTransaction.get_wipe_key tx
    ∧ TokenUpdateTransaction.get_supply_key
        (TokenUpdateTransaction.expiration_time tx t)
        = TokenUpdateTransaction.get_supply_key tx
    ∧ TokenUpdateTransaction.get_auto_renew_account_id
        (TokenUpdateTransaction.expiration_time tx t)
        = TokenUpdateTransaction.get_auto_renew_account_id tx
    ∧ TokenUpdateTransaction.get_token_memo
        (TokenUpdateTransaction.expiration_time tx t)
        = TokenUpdateTransaction.get_token_memo tx
    ∧ TokenUpdateTransaction.get_fee_schedule_key
        (TokenUpdateTransaction.expiration_time tx t)
        = TokenUpdateTransaction.get_fee_schedule_key tx
    ∧ TokenUpdateTransaction.get_pause_key
        (TokenUpdateTransaction.expiration_time tx t)
        = TokenUpdateTransaction.get_pause_key tx :=
  ⟨rfl, rfl, rfl, rfl, rfl, rfl, rfl, rfl, rfl, rfl, rfl, rfl, rfl, rfl, rfl, rfl⟩

/-- C9: the staked account id and staked node id of an account-create
transaction occupy a single slot and are mutually exclusive: setting one
makes the other's getter return `None`, and the two getters are never both
`Some` at once. -/
theorem c9_staked_id_mutually_exclusive (tx : AccountCreateTransaction)
    (a : AccountId) (n : Nat) :
    AccountCreateTransaction.get_staked_node_id
        (AccountCreateTransaction.staked_account_id tx a) = none
    ∧ AccountCreateTransaction.get_staked_account_id
        (AccountCreateTransaction.staked_account_id tx a) = some a
    ∧ AccountCreateTransaction.get_staked_account_id
        (AccountCreateTransaction.staked_node_id tx n) = none
    ∧ AccountCreateTransaction.get_staked_node_id
        (AccountCreateTransaction.staked_node_id tx n) = some n
    ∧ (AccountCreateTransaction.get_staked_account_id tx = none
        ∨ AccountCreateTransaction.get_staked_node_id tx = none) := by
  refine ⟨rfl, rfl, rfl, rfl, ?_⟩
  unfold AccountCreateTransaction.get_staked_account_id
    AccountCreateTransaction.get_staked_node_id
  rcases tx.data.staked_id with _ | s
  · exact Or.inl rfl
  · cases s with
    | accountId a0 => exact Or.inr rfl
    | nodeId n0 => exact Or.inl rfl

/-- The checksum digest reads only `(shard, realm, num)` and the ledger
bytes; the embedded checksum field does not feed it. -/
theorem entityChecksum_irrel (l : LedgerId) (id : EntityId) (c : Option Nat) :
    entityChecksum l { id with checksum := c } = entityChecksum l id := rfl

/-- C4 (amended): an identifier without an embedded checksum validates
unconditionally; one carrying the checksum computed under ledger `l`
validates against `l`; and against another ledger `l2` it fails with
`BadEntityIdChecksum {expected, actual, identifier}` exactly when the
checksum computed under `l2` differs from the one computed under `l` —
distinct ledger identities with colliding digests are not distinguished. -/
theorem c4_checksum_validation (id : EntityId) (l l2 : LedgerId) :
    (id.checksum = none → id.validate_checksums l = .ok ())
    ∧ EntityId.validate_checksums { id with checksum := some (entityChecksum l id) } l = .ok ()
    ∧ (entityChecksum l2 id ≠ entityChecksum l id →
        EntityId.validate_checksums { id with checksum := some (entityChecksum l id) } l2
          = .error (.badEntityIdChecksum (entityChecksum l2 id) (entityChecksum l id)
              { id with checksum := some (entityChecksum l id) })) := by
  refine ⟨fun h => ?_, ?_, fun h => ?_⟩
  · unfold EntityId.validate_checksums
    rw [h]
  · unfold EntityId.validate_checksums
    simp [entityChecksum_irrel]
  · unfold EntityId.validate_checksums
    simp only [entityChecksum_irrel]
    rw [if_neg (fun hc => h hc.symm)]

/-- C4 witness: `0.0.1002` stamped with its mainnet (`[0]`) checksum
validates on mainnet, and fails against testnet (`[1]`) with the structured
mismatch error. -/
theorem c4_checksum_validation_witness :
    EntityId.validate_checksums
        ⟨0, 0, 1002, some (entityChecksum [0] ⟨0, 0, 1002, none⟩)⟩ [0] = .ok ()
    ∧ EntityId.validate_checksums
        ⟨0, 0, 1002, some (entityChecksum [0] ⟨0, 0, 1002, none⟩)⟩ [1]
      = .error (.badEntityIdChecksum (entityChecksum [1] ⟨0, 0, 1002, none⟩)
          (entityChecksum [0] ⟨0, 0, 1002, none⟩)
          ⟨0, 0, 1002, some (entityChecksum [0] ⟨0, 0, 1002, none⟩)⟩) :=
  ⟨(c4_checksum_validation ⟨0, 0, 1002, none⟩ [0] [1]).2.1,
   (c4_checksum_validation ⟨0, 0, 1002, none⟩ [0] [1]).2.2 (by decide)⟩

/-- C4 counterexample: the claim's universal clause "validation of I
against any other ledger identity L' ≠ L fails" is false: the ledger
identities `[0]` and `[0, 0]` are distinct but digest identically, so an
identifier stamped under `[0]` also validates against `[0, 0]`. -/
theorem c4_counterexample :
    ([0] : LedgerId) ≠ [0, 0]
    ∧ EntityId.validate_checksums
        ⟨0, 0, 1002, some (entityChecksum [0] ⟨0, 0, 1002, none⟩)⟩ [0, 0] = .ok () := by
  exact ⟨by decide, by decide⟩

/-- When every attempt in a window fails with a retryable failure, the
retry loop runs the whole window and reports each attempt's node and
reason in attempt order, appended to the already-accumulated failures. -/
theorem submitGo_all_retryable (respond : Nat → Nat → SubmitOutcome) (nodes : List Nat)
    (reason : Nat → Nat) :
    ∀ (fuel start : Nat) (acc : List (Nat × Nat)),
      (∀ i, start ≤ i → i < start + fuel →
          respond i (nodes.getD (i % nodes.length) 0) = .retryable (reason i)) →
      submitGo respond nodes start fuel acc =
        .exhausted (acc.reverse ++ (List.range' start fuel).map
          fun i => (nodes.getD (i % nodes.length) 0, reason i)) := by
  intro fuel
  induction fuel with
  | zero =>
    intro start acc h
    simp [submitGo]
  | succ fuel ih =>
    intro start acc h
    rw [submitGo]
    simp only [h start le_rfl (by omega)]
    rw [ih (start + 1) ((nodes.getD (start % nodes.length) 0, reason start) :: acc)
      (fun i h1 h2 => h i (by omega) (by omega))]
    rw [List.range'_succ]
    simp [List.append_assoc]

/-- C7 (amended): when every attempt fails with a retryable failure
(busy/unavailable/transport), the Node Submission Pipeline stops after
exactly `max_attempts` submission attempts and surfaces the exhaustion
result carrying the failure reason of every attempted node, listed in
attempt order (cycling through the candidate list). -/
theorem c7_retry_exhaustion (respond : Nat → Nat → SubmitOutcome) (nodes : List Nat)
    (max_attempts : Nat) (reason : Nat → Nat)
    (h : ∀ i, i < max_attempts →
        respond i (nodes.getD (i % nodes.length) 0) = .retryable (reason i)) :
    submit_pipeline respond nodes max_attempts =
      .exhausted ((List.range max_attempts).map
        fun i => (nodes.getD (i % nodes.length) 0, reason i))
    ∧ ((List.range max_attempts).map
        fun i => (nodes.getD (i % nodes.length) 0, reason i)).length = max_attempts := by
  constructor
  · unfold submit_pipeline
    rw [List.range_eq_range']
    simpa using submitGo_all_retryable respond nodes reason max_attempts 0 []
      (fun i h1 h2 => h i (by omega))
  · simp

/-- C7 witness: two candidate nodes `[3, 5]`, four attempts, every answer
retryable with reason `100 * attempt + node`: the pipeline exhausts after
exactly four attempts and lists all four failures in attempt order. -/
theorem c7_retry_exhaustion_witness :
    submit_pipeline (fun i n => .retryable (100 * i + n)) [3, 5] 4 =
      .exhausted ((List.range 4).map
        fun i => (([3, 5] : List Nat).getD (i % 2) 0,
          100 * i + ([3, 5] : List Nat).getD (i % 2) 0))
    ∧ ((List.range 4).map
        fun i => (([3, 5] : List Nat).getD (i % 2) 0,
          100 * i + ([3, 5] : List Nat).getD (i % 2) 0)).length = 4 :=
  c7_retry_exhaustion (fun i n => .retryable (100 * i + n)) [3, 5] 4
    (fun i => 100 * i + ([3, 5] : List Nat).getD (i % 2) 0) (by decide)

/-- C7 counterexample: the claim quantifies over every run in which the
pipeline "never receives an acceptance", but a permanent protocol
rejection — which is never an acceptance — stops the pipeline immediately
with the rejection: here the first node permanently rejects at attempt 0,
so with `max_attempts = 4` the pipeline stops after one attempt with a
`rejected` result, not after four attempts with an exhaustion report. -/
theorem c7_counterexample :
    submit_pipeline (fun i _ => if i = 0 then .permanent 7 else .retryable 1) [3, 5] 4
      = .rejected 3 7 := by decide

/-- A successful freeze is idempotent on the nose: freezing the frozen
envelope again succeeds and returns it unchanged (the transaction id and
node list are already set, and the chunk plan is recomputed from the
unchanged payload bytes). -/
theorem freeze_fixed_point (cfg : FreezeContext) (e e1 : Envelope)
    (h : e.freeze cfg = .ok e1) : e1.freeze cfg = .ok e1 := by
  unfold Envelope.freeze at h ⊢
  cases hp : (if cfg.chunk_threshold < e.payload_bytes.length
      then (chunkPlanner cfg.max_chunks cfg.per_chunk_limit e.payload_bytes).map some
      else .ok none) with
  | error err => rw [hp] at h; cases h
  | ok plan =>
    rw [hp] at h
    injection h with h
    subst h
    simp only []
    rw [hp]
    simp

/-- C6: freezing an envelope twice without intervening mutation is
idempotent: the transaction id and the chunk plan resulting from the
second freeze are identical to those resulting from the first. -/
theorem c6_freeze_idempotent (cfg : FreezeContext) (e e1 e2 : Envelope)
    (h1 : e.freeze cfg = .ok e1) (h2 : e1.freeze cfg = .ok e2) :
    e2.transaction_id = e1.transaction_id ∧ e2.chunk_plan = e1.chunk_plan := by
  have hfix := freeze_fixed_point cfg e e1 h1
  rw [hfix] at h2
  injection h2 with h2
  rw [h2]
  exact ⟨rfl, rfl⟩

/-- C6 witness: the sample 3-byte envelope freezes against the sample
configuration (chunk threshold 2) to `sampleFrozen`; re-freezing yields
the same transaction id and chunk plan. -/
theorem c6_freeze_idempotent_witness :
    sampleFrozen.transaction_id = sampleFrozen.transaction_id
    ∧ sampleFrozen.chunk_plan = sampleFrozen.chunk_plan :=
  c6_freeze_idempotent sampleFreezeContext sampleEnvelope sampleFrozen sampleFrozen
    (by decide) (by decide)

/-- Concatenating the ranges produced by the fuelled splitter reconstructs
the input exactly, whenever the fuel covers the input length. -/
theorem chunkRangesAux_join (n : Nat) (hn : 0 < n) :
    ∀ (fuel : Nat) (l : List Nat), l.length ≤ fuel →
      (chunkRangesAux fuel n l).flatten = l := by
  intro fuel
  induction fuel with
  | zero =>
    intro l hl
    have : l = [] := List.eq_nil_of_length_eq_zero (by omega)
    subst this
    simp [chunkRangesAux]
  | succ fuel ih =>
    intro l hl
    cases l with
    | nil => simp [chunkRangesAux]
    | cons x xs =>
      rw [chunkRangesAux]
      rw [List.flatten_cons]
      rw [ih ((x :: xs).drop n)
        (by simp only [List.length_drop, List.length_cons] at *; omega)]
      exact List.take_append_drop n (x :: xs)

/-- The fuelled splitter produces exactly `⌈length / n⌉` ranges, whenever
the fuel covers the input length. -/
theorem chunkRangesAux_length (n : Nat) (hn : 0 < n) :
    ∀ (fuel : Nat) (l : List Nat), l.length ≤ fuel →
      (chunkRangesAux fuel n l).length = (l.length + n - 1) / n := by
  intro fuel
  induction fuel with
  | zero =>
    intro l hl
    have : l = [] := List.eq_nil_of_length_eq_zero (by omega)
    subst this
    simp [chunkRangesAux]
    exact (Nat.div_eq_of_lt (by omega)).symm
  | succ fuel ih =>
    intro l hl
    cases l with
    | nil =>
      simp [chunkRangesAux]
      exact (Nat.div_eq_of_lt (by omega)).symm
    | cons x xs =>
      rw [chunkRangesAux]
      rw [List.length_cons]
      rw [ih ((x :: xs).drop n)
        (by simp only [List.length_drop, List.length_cons] at *; omega)]
      rw [List.length_drop]
      by_cases hL : (x :: xs).length ≤ n
      · have h1 : ((x :: xs).length - n + n - 1) / n = 0 :=
          Nat.div_eq_of_lt (by simp only [List.length_cons] at hL ⊢; omega)
        have h2 : ((x :: xs).length + n - 1) / n = 1 :=
          Nat.div_eq_of_lt_le (by simp only [List.length_cons]; omega)
            (by simp only [List.length_cons] at hL ⊢; omega)
        rw [h1, h2]
      · have h3 : (x :: xs).length - n + n - 1 = (x :: xs).length - 1 := by
          simp only [List.length_cons] at hL ⊢; omega
        have h4 : (x :: xs).length + n - 1 = (x :: xs).length - 1 + n := by
          simp only [List.length_cons]; omega
        rw [h3, h4, Nat.add_div_right _ hn]

/-- Tagging enumerated ranges with a fixed total projects back to
contiguous indices `0, 1, …`. -/
theorem enum_chunk_index (total : Nat) (rs : List (List Nat)) :
    (rs.enum.map fun p => (⟨p.1, total, p.2⟩ : Chunk)).map Chunk.index
      = List.range rs.length := by
  rw [List.map_map]
  have hc : (Chunk.index ∘ fun p : Nat × List Nat => (⟨p.1, total, p.2⟩ : Chunk))
      = Prod.fst := rfl
  rw [hc, List.enum_map_fst]

/-- Tagging enumerated ranges with a fixed total projects back to the
ranges themselves. -/
theorem enum_chunk_payload (total : Nat) (rs : List (List Nat)) :
    (rs.enum.map fun p => (⟨p.1, total, p.2⟩ : Chunk)).map Chunk.payload = rs := by
  rw [List.map_map]
  have hc : (Chunk.payload ∘ fun p : Nat × List Nat => (⟨p.1, total, p.2⟩ : Chunk))
      = Prod.snd := rfl
  rw [hc, List.enum_map_snd]

/-- C5: for an oversized payload with per-chunk byte limit `n` (and the
required count within the configured maximum), the Chunk Planner succeeds,
produces exactly `⌈size / n⌉` chunks, their indices are contiguous from 0,
and concatenating the chunk payload ranges in index order reconstructs the
original bytes exactly. -/
theorem c5_chunk_planner (max_chunks n threshold : Nat) (bytes : List Nat)
    (hn : 0 < n) (_hover : threshold < bytes.length)
    (hcap : (bytes.length + n - 1) / n ≤ max_chunks) :
    (chunkPlanner max_chunks n bytes).isOk = true
    ∧ ∀ cs, chunkPlanner max_chunks n bytes = .ok cs →
        cs.length = (bytes.length + n - 1) / n
        ∧ cs.map Chunk.index = List.range cs.length
        ∧ (cs.map Chunk.payload).flatten = bytes := by
  have hok : chunkPlanner max_chunks n bytes =
      .ok ((chunkRanges n bytes).enum.map
        fun p => (⟨p.1, (bytes.length + n - 1) / n, p.2⟩ : Chunk)) := by
    unfold chunkPlanner
    rw [if_neg (by omega)]
  have hlen : (chunkRanges n bytes).length = (bytes.length + n - 1) / n :=
    chunkRangesAux_length n hn bytes.length bytes le_rfl
  refine ⟨by rw [hok]; rfl, fun cs hcs => ?_⟩
  rw [hok] at hcs
  injection hcs with hcs
  subst hcs
  refine ⟨by simpa using hlen, ?_, ?_⟩
  · rw [enum_chunk_index]
    congr 1
    simp [hlen]
  · rw [enum_chunk_payload]
    exact chunkRangesAux_join n hn bytes.length bytes le_rfl

/-- C5 witness: 9 bytes over a 4-byte limit (threshold 5, maximum 20) plan
into `⌈9/4⌉ = 3` chunks with indices `0, 1, 2` whose ranges concatenate to
the input. -/
theorem c5_chunk_planner_witness :
    (chunkPlanner 20 4 [1, 2, 3, 4, 5, 6, 7, 8, 9]).isOk = true
    ∧ ([⟨0, 3, [1, 2, 3, 4]⟩, ⟨1, 3, [5, 6, 7, 8]⟩, ⟨2, 3, [9]⟩] : List Chunk).length
        = (9 + 4 - 1) / 4
    ∧ ([⟨0, 3, [1, 2, 3, 4]⟩, ⟨1, 3, [5, 6, 7, 8]⟩, ⟨2, 3, [9]⟩] : List Chunk).map
        Chunk.index = List.range 3
    ∧ (([⟨0, 3, [1, 2, 3, 4]⟩, ⟨1, 3, [5, 6, 7, 8]⟩, ⟨2, 3, [9]⟩] : List Chunk).map
        Chunk.payload).flatten = [1, 2, 3, 4, 5, 6, 7, 8, 9] := by
  have h := c5_chunk_planner 20 4 5 [1, 2, 3, 4, 5, 6, 7, 8, 9]
    (by decide) (by decide) (by decide)
  obtain ⟨hisOk, hall⟩ := h
  have hspec := hall [⟨0, 3, [1, 2, 3, 4]⟩, ⟨1, 3, [5, 6, 7, 8]⟩, ⟨2, 3, [9]⟩] (by decide)
  exact ⟨hisOk, hspec.1, hspec.2.1, hspec.2.2⟩

/-- Validating an optional identifier succeeds exactly when every
identifier it holds validates. -/
theorem optionValidate_ok_iff {α : Type} (f : α → LedgerId → Except Error Unit)
    (o : Option α) (l : LedgerId) :
    optionValidate f o l = .ok () ↔ ∀ a ∈ o, f a l = .ok () := by
  cases o <;> simp [optionValidate]

/-- The token-update validator succeeds exactly when all three of its
optional identifiers validate. -/
theorem tokenUpdate_validate_ok_iff (d : TokenUpdateTransactionData) (l : LedgerId) :
    d.validate_checksums l = .ok ()
      ↔ optionValidate EntityId.validate_checksums d.token_id l = .ok ()
        ∧ optionValidate EntityId.validate_checksums d.auto_renew_account_id l = .ok ()
        ∧ optionValidate EntityId.validate_checksums d.treasury_account_id l = .ok () := by
  unfold TokenUpdateTransactionData.validate_checksums
  cases h1 : optionValidate EntityId.validate_checksums d.token_id l with
  | error e => simp [h1]
  | ok u =>
    cases u
    cases h2 : optionValidate EntityId.validate_checksums d.auto_renew_account_id l with
    | error e => simp [h2]
    | ok u => cases u; simp

/-- The account-delete validator succeeds exactly when both of its
optional identifiers validate. -/
theorem accountDelete_validate_ok_iff (d : AccountDeleteTransactionData) (l : LedgerId) :
    d.validate_checksums l = .ok ()
      ↔ optionValidate EntityId.validate_checksums d.delete_account_id l = .ok ()
        ∧ optionValidate EntityId.validate_checksums d.transfer_account_id l = .ok () := by
  unfold AccountDeleteTransactionData.validate_checksums
  cases h1 : optionValidate EntityId.validate_checksums d.delete_account_id l with
  | error e => simp [h1]
  | ok u => cases u; simp

/-- Execution hands the serialized body and dispatched method to the
pipeline exactly when the payload's own validator succeeds. -/
theorem executeTransaction_ok_iff (p : AnyTransactionData) (l : LedgerId) :
    executeTransaction p l = .ok ⟨p.to_transaction_data_protobuf, p.rpc_method⟩
      ↔ p.validate_checksums l = .ok () := by
  unfold executeTransaction
  cases h : p.validate_checksums l with
  | error e => simp
  | ok u => cases u; simp

/-- C1 (amended): `execute` runs the Identifier & Checksum Validator before
any network call and hands the serialized payload to the Node Submission
Pipeline exactly when every identifier its validator covers passes — but
the covered identifiers are: for an account-creation payload only its
staked id (the auto-renew account id is NOT validated); for a token-update
payload its token id, auto-renew account id and treasury account id; for
an account-deletion payload its delete and transfer account ids. -/
theorem c1_execute_checksum_gate (p : AnyTransactionData) (ledger : LedgerId) :
    executeTransaction p ledger = .ok ⟨p.to_transaction_data_protobuf, p.rpc_method⟩
      ↔ ∀ id ∈ p.covered_identifiers, id.validate_checksums ledger = .ok () := by
  rw [executeTransaction_ok_iff]
  cases p with
  | accountCreate d =>
    show d.validate_checksums ledger = .ok () ↔ _
    unfold AccountCreateTransactionData.validate_checksums
      AnyTransactionData.covered_identifiers
    cases hs : d.staked_id with
    | none => simp [optionValidate, hs]
    | some s =>
      cases s with
      | accountId a =>
        simp [optionValidate, hs, StakedId.validate_checksums, StakedId.to_account_id]
      | nodeId nid =>
        simp [optionValidate, hs, StakedId.validate_checksums, StakedId.to_node_id,
          StakedId.to_account_id]
  | accountDelete d =>
    show d.validate_checksums ledger = .ok () ↔ _
    rw [accountDelete_validate_ok_iff]
    unfold AnyTransactionData.covered_identifiers
    rw [optionValidate_ok_iff, optionValidate_ok_iff]
    constructor
    · rintro ⟨ha, hb⟩ id hid
      rcases List.mem_append.mp hid with hm | hm
      · exact ha id (by simpa using hm)
      · exact hb id (by simpa using hm)
    · intro hall
      exact ⟨fun a ha => hall a (by simp [ha]), fun a ha => hall a (by simp [ha])⟩
  | tokenUpdate d =>
    show d.validate_checksums ledger = .ok () ↔ _
    rw [tokenUpdate_validate_ok_iff]
    unfold AnyTransactionData.covered_identifiers
    rw [optionValidate_ok_iff, optionValidate_ok_iff, optionValidate_ok_iff]
    constructor
    · rintro ⟨ha, hb, hc⟩ id hid
      rcases List.mem_append.mp hid with hm | hm
      · rcases List.mem_append.mp hm with hm2 | hm2
        · exact ha id (by simpa using hm2)
        · exact hb id (by simpa using hm2)
      · exact hc id (by simpa using hm)
    · intro hall
      exact ⟨fun a ha => hall a (by simp [ha]), fun a ha => hall a (by simp [ha]),
        fun a ha => hall a (by simp [ha])⟩

/-- C1 witness: a token-update payload whose three identifiers carry their
correct checksums executes successfully end to end. -/
theorem c1_execute_checksum_gate_witness :
    executeTransaction
        (.tokenUpdate { TokenUpdateTransactionData.default with
            token_id := some ⟨0, 0, 7, some (entityChecksum [0] ⟨0, 0, 7, none⟩)⟩ }) [0]
      = .ok ⟨AnyTransactionData.to_transaction_data_protobuf
          (.tokenUpdate { TokenUpdateTransactionData.default with
              token_id := some ⟨0, 0, 7, some (entityChecksum [0] ⟨0, 0, 7, none⟩)⟩ }),
          AnyTransactionData.rpc_method
            (.tokenUpdate { TokenUpdateTransactionData.default with
                token_id := some ⟨0, 0, 7, some (entityChecksum [0] ⟨0, 0, 7, none⟩)⟩ })⟩ :=
  (c1_execute_checksum_gate
    (.tokenUpdate { TokenUpdateTransactionData.default with
        token_id := some ⟨0, 0, 7, some (entityChecksum [0] ⟨0, 0, 7, none⟩)⟩ }) [0]).mpr
    (by decide)

/-- C1 counterexample: the claim says an account-creation payload's
auto-renew account id is checksum-validated by execute, but the source
validator (`account_create_transaction.rs` lines 312-316) validates only
`staked_id`: a payload whose auto-renew account id carries a wrong checksum
(0 instead of the ledger's) still executes successfully. -/
theorem c1_counterexample :
    (executeTransaction
        (.accountCreate { AccountCreateTransactionData.default with
            auto_renew_account_id := some ⟨0, 0, 1002, some 0⟩ }) [0]).isOk = true
    ∧ EntityId.validate_checksums ⟨0, 0, 1002, some 0⟩ [0] ≠ .ok () := by
  exact ⟨by decide, by decide⟩

/-- C10: decoding an account-creation wire body disambiguates the alias
byte field by length: exactly 20 bytes decode as an evm address with the
key alias unset; any other length leaves the evm address unset, parsing a
non-empty field as a public-key alias and failing the decode when it is
not a validly-sized alias key. -/
theorem c10_alias_length_disambiguation (pb : CryptoCreateTransactionBody) :
    (pb.«alias».length = 20 →
      ∀ d, AccountCreateTransactionData.from_protobuf pb = .ok d →
        d.evm_address = some pb.«alias» ∧ d.«alias» = none)
    ∧ (pb.«alias».length ≠ 20 →
      ∀ d, AccountCreateTransactionData.from_protobuf pb = .ok d →
        d.evm_address = none ∧ (pb.«alias» ≠ [] → d.«alias» = some ⟨pb.«alias»⟩))
    ∧ (pb.«alias».length ≠ 20 → pb.«alias» ≠ [] →
        ¬(pb.«alias».length = 32 ∨ pb.«alias».length = 33) →
        AccountCreateTransactionData.from_protobuf pb = .error .keyParse) := by
  unfold AccountCreateTransactionData.from_protobuf
  refine ⟨fun h20 d hd => ?_, fun hne d hd => ?_, fun hne hnil hinv => ?_⟩
  · rw [if_neg (by omega)] at hd
    simp only [Except.ok.injEq] at hd
    subst hd
    refine ⟨?_, rfl⟩
    simp [tryIntoEvmAddress, h20]
  · rw [if_pos hne] at hd
    cases hab : PublicKey.from_alias_bytes pb.«alias» with
    | error e => rw [hab] at hd; cases hd
    | ok keyAlias =>
      rw [hab] at hd
      simp only [Except.ok.injEq] at hd
      subst hd
      refine ⟨by simp [tryIntoEvmAddress, hne], fun hnil => ?_⟩
      unfold PublicKey.from_alias_bytes at hab
      rw [if_neg hnil] at hab
      by_cases hv : pb.«alias».length = 32 ∨ pb.«alias».length = 33
      · rw [if_pos hv] at hab
        injection hab with hab
        exact hab.symm
      · rw [if_neg hv] at hab
        cases hab
  · rw [if_pos hne]
    unfold PublicKey.from_alias_bytes
    rw [if_neg hnil, if_neg hinv]

/-- C10 witness: a 20-byte alias field decodes to an evm address with no
key alias, and an ill-sized 5-byte alias field fails the decode. -/
theorem c10_alias_length_disambiguation_witness :
    (sampleDecoded20.evm_address = some samplePb20.«alias»
      ∧ sampleDecoded20.«alias» = none)
    ∧ AccountCreateTransactionData.from_protobuf samplePb5 = .error .keyParse :=
  ⟨(c10_alias_length_disambiguation samplePb20).1 (by decide) sampleDecoded20 (by decide),
   (c10_alias_length_disambiguation samplePb5).2.2 (by decide) (by decide) (by decide)⟩

/-- The id codec applied under `Option.map` is the identity. -/
theorem map_entity_to_protobuf (o : Option EntityId) :
    o.map EntityId.to_protobuf = o := by
  cases o <;> rfl

/-- Parsing the raw serialization of a validly-constructed key recovers
the key. -/
theorem from_alias_bytes_of_wf (k : PublicKey) (hk : k.wf = true) :
    PublicKey.from_alias_bytes k.bytes = .ok (some k) := by
  simp only [PublicKey.wf, Bool.or_eq_true, beq_iff_eq] at hk
  have hne : k.bytes ≠ [] := by
    rcases hk with h | h <;> (intro hnil; rw [hnil] at h; simp at h)
  unfold PublicKey.from_alias_bytes
  rw [if_neg hne, if_pos hk]

/-- The raw serialization of a validly-constructed key is never 20 bytes,
so it is never mistaken for an evm address. -/
theorem tryIntoEvm_of_wf (k : PublicKey) (hk : k.wf = true) :
    tryIntoEvmAddress k.bytes = none := by
  simp only [PublicKey.wf, Bool.or_eq_true, beq_iff_eq] at hk
  unfold tryIntoEvmAddress
  rw [if_neg (by rcases hk with h | h <;> omega)]

/-- The raw serialization of a validly-constructed key has a length other
than 20. -/
theorem wf_len_ne_20 (k : PublicKey) (hk : k.wf = true) : k.bytes.length ≠ 20 := by
  simp only [PublicKey.wf, Bool.or_eq_true, beq_iff_eq] at hk
  rcases hk with h | h <;> omega

/-- C2 (amended): encode/decode round-trips exactly for token-update
payload data; for account-creation payload data it round-trips on every
field except `auto_renew_period` and `auto_renew_account_id` (decoded
unconditionally as `None`) and `evm_address` (never encoded, since the
wire alias byte field carries the key alias or nothing). -/
theorem c2_wire_roundtrip (du : TokenUpdateTransactionData)
    (dc : AccountCreateTransactionData) (h : dc.wf = true) :
    TokenUpdateTransactionData.from_protobuf du.to_protobuf = .ok du
    ∧ AccountCreateTransactionData.from_protobuf dc.to_protobuf =
        .ok { dc with
                auto_renew_period := none
                auto_renew_account_id := none
                evm_address := none } := by
  constructor
  · unfold TokenUpdateTransactionData.from_protobuf TokenUpdateTransactionData.to_protobuf
    simp [map_entity_to_protobuf]
  · obtain ⟨key, bal, rsr, arp, ara, memo, mata, al, evm, sid, dsr⟩ := dc
    simp only [AccountCreateTransactionData.wf, Bool.and_eq_true, decide_eq_true_eq] at h
    obtain ⟨⟨⟨⟨hb1, hb2⟩, hm⟩, hal⟩, hsid⟩ := h
    unfold AccountCreateTransactionData.to_protobuf AccountCreateTransactionData.from_protobuf
    rcases al with _ | k <;> rcases sid with _ | (a | n)
    · simp [PublicKey.from_alias_bytes, tryIntoEvmAddress,
        i64OfU64_u64OfI64 bal hb1 hb2, u16OfI32_coe mata hm]
    · simp [PublicKey.from_alias_bytes, tryIntoEvmAddress, EntityId.to_protobuf,
        ProtoCreateStakedId.decode, i64OfU64_u64OfI64 bal hb1 hb2, u16OfI32_coe mata hm]
    · simp only [decide_eq_true_eq] at hsid
      simp [PublicKey.from_alias_bytes, tryIntoEvmAddress, ProtoCreateStakedId.decode,
        i64OfU64_u64OfI64 bal hb1 hb2, u16OfI32_coe mata hm, u64OfI64_i64OfU64 n hsid]
    · have hkwf : PublicKey.wf k = true := by simpa using hal
      simp [from_alias_bytes_of_wf k hkwf, tryIntoEvm_of_wf k hkwf, wf_len_ne_20 k hkwf,
        i64OfU64_u64OfI64 bal hb1 hb2, u16OfI32_coe mata hm]
    · have hkwf : PublicKey.wf k = true := by simpa using hal
      simp [from_alias_bytes_of_wf k hkwf, tryIntoEvm_of_wf k hkwf, wf_len_ne_20 k hkwf,
        EntityId.to_protobuf, ProtoCreateStakedId.decode,
        i64OfU64_u64OfI64 bal hb1 hb2, u16OfI32_coe mata hm]
    · have hkwf : PublicKey.wf k = true := by simpa using hal
      simp only [decide_eq_true_eq] at hsid
      simp [from_alias_bytes_of_wf k hkwf, tryIntoEvm_of_wf k hkwf, wf_len_ne_20 k hkwf,
        ProtoCreateStakedId.decode, i64OfU64_u64OfI64 bal hb1 hb2, u16OfI32_coe mata hm,
        u64OfI64_i64OfU64 n hsid]

/-- C2 witness: a token-update payload with a token id and an
account-create payload with a key alias, a staked node id and a positive
balance, both within construction bounds, round-trip exactly as the
theorem states. -/
theorem c2_wire_roundtrip_witness :
    TokenUpdateTransactionData.from_protobuf
        (TokenUpdateTransactionData.to_protobuf
          { TokenUpdateTransactionData.default with token_id := some ⟨1, 2, 3, none⟩ })
      = .ok { TokenUpdateTransactionData.default with token_id := some ⟨1, 2, 3, none⟩ }
    ∧ AccountCreateTransactionData.from_protobuf
        (AccountCreateTransactionData.to_protobuf
          { AccountCreateTransactionData.default with
              «alias» := some ⟨List.replicate 32 1⟩
              staked_id := some (.nodeId 5)
              initial_balance := 100 })
      = .ok { { AccountCreateTransactionData.default with
              «alias» := some ⟨List.replicate 32 1⟩
              staked_id := some (.nodeId 5)
              initial_balance := 100 } with
            auto_renew_period := none
            auto_renew_account_id := none
            evm_address := none } :=
  c2_wire_roundtrip
    { TokenUpdateTransactionData.default with token_id := some ⟨1, 2, 3, none⟩ }
    { AccountCreateTransactionData.default with
        «alias» := some ⟨List.replicate 32 1⟩
        staked_id := some (.nodeId 5)
        initial_balance := 100 } (by decide)

/-- C2 counterexample: the default account-create payload (which carries a
90-day auto-renew period) extended with an auto-renew account id and an
evm address does not round-trip: decoding its encoding drops all three
fields, so the claim's bit-for-bit round-trip fails on a
validly-constructed payload. -/
theorem c2_counterexample :
    AccountCreateTransactionData.from_protobuf
        (AccountCreateTransactionData.to_protobuf
          { AccountCreateTransactionData.default with
              auto_renew_account_id := some ⟨0, 0, 5, none⟩
              evm_address := some (List.replicate 20 9) })
      ≠ .ok { AccountCreateTransactionData.default with
            auto_renew_account_id := some ⟨0, 0, 5, none⟩
            evm_address := some (List.replicate 20 9) } := by decide

end Hedera
